import Mathlib

/-!
Shallow embedding of the slsim repository sources
(src/sim_pipeline/gg_lens_pop.py and src/slsim/roman_image_simulation.py)
together with theorems settling the claims about them.

Conventions of the embedding:
* Python dictionaries of physical quantities become association lists.
* External-library calls (SkyPy, lenstronomy, galsim, webbpsf) are modelled
  as deterministic oracle functions gathered in structures; the repository
  code under verification is the orchestration around them, translated
  statement by statement.
* Raised exceptions become Except.error values; the on-disk PSF cache
  becomes an explicit association list from paths to file contents that the
  modelled functions thread through.
-/

set_option autoImplicit false

/-! ## Population sampler: src/sim_pipeline/gg_lens_pop.py -/

/-- A deflector or source parameter dictionary (physical quantities drawn
from a population catalog). -/
abbrev ParamSet := List (String × Int)

/-- Cosmology reference carried by the population and each lens record. -/
abbrev Cosmo := Int

/-- State of the random draws of the external catalog.  Modelled from the
spec: population sampling relies on the external catalog random draws; the
draws are deterministic functions of this state. -/
abbrev Rng := Nat

/-- The lens-system record built by GGLens(deflector_dict, source_dict,
cosmo) in sim_pipeline/gg_lens.py (that file is not under src/; the record
shape follows the spec data model: a deflector parameter set paired with a
source parameter set and a cosmology reference). -/
structure GGLens where
  deflector : ParamSet
  source : ParamSet
  cosmo : Cosmo
deriving DecidableEq, Repr

/-- Interface of sim_pipeline.Sources.galaxies.Galaxies (not under src/).
Modelled from the spec: draw_galaxy draws one source from the external
catalog, deterministically in the rng state; galaxies_number is the
catalog size used by draw_population. -/
structure Galaxies where
  draw_galaxy : Rng → ParamSet × Rng
  galaxies_number : Nat

/-- Interface of sim_pipeline.Lenses.early_type_lens_galaxies
.EarlyTypeLensGalaxies (not under src/).  Modelled from the spec:
draw_deflector draws one deflector from the external catalog,
deterministically in the rng state; deflector_number is the catalog size
used by draw_population. -/
structure EarlyTypeLensGalaxies where
  draw_deflector : Rng → ParamSet × Rng
  deflector_number : Nat

/-- The GGLensPop object after a successful __init__: the source and lens
population objects and the cosmology. -/
structure GGLensPop where
  lens_galaxies : EarlyTypeLensGalaxies
  source_galaxies : Galaxies
  cosmo : Cosmo

/-- Observable events of GGLensPop.__init__ that the error-handling claims
order against the raise: construction of the SkyPyPipeline and the accesses
to its red_galaxies and blue_galaxies tables. -/
inductive InitEvent where
  | pipelineConstructed
  | redGalaxiesQueried
  | blueGalaxiesQueried
deriving DecidableEq, Repr

/-- GGLensPop.__init__ reduced to its control flow: it constructs the
SkyPyPipeline first, then checks lens_type (raising ValueError when it is
not early-type), queries pipeline.red_galaxies in the supported branch,
then checks source_type (raising ValueError when it is not galaxies), and
queries pipeline.blue_galaxies in the supported branch.  The returned trace
lists the events that happened before the function returned or raised. -/
def ggInit (lens_type source_type : String) : List InitEvent × Except String Unit :=
  let ev0 := [InitEvent.pipelineConstructed]
  if lens_type = "early-type" then
    let ev1 := ev0 ++ [InitEvent.redGalaxiesQueried]
    if source_type = "galaxies" then
      (ev1 ++ [InitEvent.blueGalaxiesQueried], Except.ok ())
    else
      (ev1, Except.error ("source_type " ++ source_type ++ " is not supported"))
  else
    (ev0, Except.error ("lens_type " ++ lens_type ++ " is not supported"))

/-- GGLensPop.select_lens_at_random: draw a source, draw a deflector,
combine into a GGLens record. -/
def GGLensPop.select_lens_at_random (pop : GGLensPop) (rng : Rng) : GGLens × Rng :=
  let sourceDraw := pop.source_galaxies.draw_galaxy rng
  let lensDraw := pop.lens_galaxies.draw_deflector sourceDraw.2
  (⟨lensDraw.1, sourceDraw.1, pop.cosmo⟩, lensDraw.2)

/-- The trial loop of GGLensPop.draw_population: n trials, each drawing a
source and a deflector, building a GGLens and keeping it when
validity_test passes.  validity_test lives in sim_pipeline/gg_lens.py
(not under src/); modelled from the spec as an arbitrary boolean predicate
on the lens record (simple geometric and physical criteria). -/
def GGLensPop.draw_trials (pop : GGLensPop) (validity_test : GGLens → Bool) :
    Nat → Rng → List GGLens × Rng
  | 0, rng => ([], rng)
  | n + 1, rng =>
    let sourceDraw := pop.source_galaxies.draw_galaxy rng
    let lensDraw := pop.lens_galaxies.draw_deflector sourceDraw.2
    let gg_lens : GGLens := ⟨lensDraw.1, sourceDraw.1, pop.cosmo⟩
    let rest := pop.draw_trials validity_test n lensDraw.2
    if validity_test gg_lens then (gg_lens :: rest.1, rest.2) else rest

/-- GGLensPop.draw_population: estimates num_lens_systems (printed,
otherwise unused), runs 100 draw-and-validate trials collecting the
accepted systems in gg_lens_population, and returns
len(gg_lens_population) — the count, which is what the final return
statement of the source evaluates to. -/
def GGLensPop.draw_population (pop : GGLensPop) (validity_test : GGLens → Bool)
    (rng : Rng) : Nat :=
  let _num_lens_systems :=
    pop.lens_galaxies.deflector_number * pop.source_galaxies.galaxies_number
  ((pop.draw_trials validity_test 100 rng).1).length

/-! ### Concrete instances used by witnesses -/

/-- A concrete source population: constant parameter draw, advancing rng. -/
def cGalaxies : Galaxies :=
  ⟨fun r => ([("mag", 24), ("z", 1)], r + 1), 50⟩

/-- A concrete lens population: constant parameter draw, advancing rng. -/
def cLensGalaxies : EarlyTypeLensGalaxies :=
  ⟨fun r => ([("vel_disp", 250), ("z", 0)], r + 1), 10⟩

/-- A concrete GGLensPop for witnesses. -/
def cPop : GGLensPop :=
  ⟨cLensGalaxies, cGalaxies, 70⟩

/-! ## Image renderer: src/slsim/roman_image_simulation.py -/

/-- A PSF object (the value unpickled from a cache file, or freshly
computed by webbpsf and wrapped for galsim; the wrapper applied uniformly
to both is absorbed into the value). -/
structure Psf where
  data : Int
deriving DecidableEq, Repr

/-- Content of one file of the PSF cache directory: either a pickle of a
Psf, or bytes that pickle.load rejects. -/
inductive PsfFile where
  | valid (p : Psf)
  | corrupt
deriving DecidableEq, Repr

/-- The on-disk PSF cache: an association list from file paths to file
contents (os.path.exists is a lookup returning some content). -/
abbrev Fs := List (String × PsfFile)

/-- os.path.join of a directory and a file name. -/
def pathJoin (dir file : String) : String :=
  dir ++ "/" ++ file

/-- Python str.upper: upper-case every character. -/
def upper (s : String) : String :=
  String.mk (s.data.map Char.toUpper)

/-- The directory of the roman_image_simulation module,
os.path.dirname of the source file. -/
def moduleDir : String := "slsim"

/-- Python str.zfill w: left-pad with zeros to width w. -/
def zfill (w : Nat) (s : String) : String :=
  if w ≤ s.length then s
  else String.mk (List.replicate (w - s.length) '0') ++ s

/-- The detector string built by get_psf from the detector number:
SCA followed by the number zero-padded to two digits. -/
def scaId (detector : Nat) : String :=
  "SCA" ++ zfill 2 (toString detector)

/-- The PSF cache file name built by get_psf: band, SCA detector string,
both detector-position coordinates and the oversample factor joined by
underscores, with the pickle extension. -/
def psfFileName (band : String) (detector : Nat) (detector_pos : Nat × Nat)
    (oversample : Nat) : String :=
  band ++ "_" ++ scaId detector ++ "_" ++ toString detector_pos.1 ++ "_"
    ++ toString detector_pos.2 ++ "_" ++ toString oversample ++ ".pkl"

/-- The path get_psf looks up: under psf_directory when one is supplied,
otherwise under the data/webbpsf directory next to the module. -/
def psfFilePath (band : String) (detector : Nat) (detector_pos : Nat × Nat)
    (oversample : Nat) (psf_directory : Option String) : String :=
  match psf_directory with
  | some dir => pathJoin dir (psfFileName band detector detector_pos oversample)
  | none =>
    pathJoin (pathJoin (pathJoin (pathJoin moduleDir "..") "data") "webbpsf")
      (psfFileName band detector detector_pos oversample)

/-- The webbpsf WFI object (external library): calc_psf as a deterministic
function of the filter (upper-cased band), detector string, detector
position and oversample. -/
structure WFI where
  calc_psf : String → String → Nat × Nat → Nat → Psf

/-- get_psf: build the SCA detector string and the cache file name, resolve
the path (supplied directory or the default data directory), and if a file
exists there unpickle it (an unreadable pickle raises), otherwise compute
the PSF with webbpsf on the fly.  The cache state is returned unchanged:
the source never writes a cache file. -/
def get_psf (wfi : WFI) (fs : Fs) (band : String) (detector : Nat)
    (detector_pos : Nat × Nat) (oversample : Nat)
    (psf_directory : Option String) : Except String Psf × Fs :=
  let path := psfFilePath band detector detector_pos oversample psf_directory
  match fs.lookup path with
  | some (PsfFile.valid p) => (Except.ok p, fs)
  | some PsfFile.corrupt => (Except.error "UnpicklingError", fs)
  | none =>
    (Except.ok (wfi.calc_psf (upper band) (scaId detector) detector_pos oversample),
     fs)

/-- get_bandpass_key: upper-case the band and translate it through the
fixed eight-entry Roman-to-galsim dictionary; any other key raises
KeyError, modelled as none. -/
def get_bandpass_key (band : String) : Option String :=
  let b := upper band
  if b = "F062" then some "R062"
  else if b = "F087" then some "Z087"
  else if b = "F106" then some "Y106"
  else if b = "F129" then some "J129"
  else if b = "F158" then some "H158"
  else if b = "F184" then some "F184"
  else if b = "F146" then some "W149"
  else if b = "F213" then some "K213"
  else none

/-- The eight Roman band keys of the translation dictionary. -/
def romanBands : List String :=
  ["F062", "F087", "F106", "F129", "F158", "F184", "F146", "F213"]

/-- A pixel raster as a function of coordinates (pixel values are modelled
as integers; galsim quantize, which rounds to integer values, is the
identity in this model). -/
abbrev PixMap := Nat → Nat → Int

/-- A galsim image: its dimensions and its pixels. -/
structure GImage where
  nx : Nat
  ny : Nat
  pix : PixMap

/-- The lens-system record argument of simulate_roman_image, exposing
lenstronomy_kwargs per band (an abstract token for the model and parameter
dictionaries it returns). -/
structure LensClass where
  lenstronomy_kwargs : String → Int

/-- galsim.UniformDeviate: the detector-noise random generator, constructed
per call from the seed alone. -/
def uniformDeviate (seed : Nat) : Nat := seed

/-- The external astronomy libraries used by simulate_roman_image, as
deterministic oracle functions: the per-band single-band settings
(exposure time, pixel scale), the lenstronomy unconvolved rendering, the
galsim convolve-and-draw at a requested native size, the galsim sky image
for a bandpass key, detector, sky position, date and size, the Roman
thermal background per bandpass key, and the galsim detector effects as a
function of the pixels, the rng and the exposure time. -/
structure Externals where
  wfi : WFI
  kwargs_single_band : String → Int × Int
  render_unconvolved : Int → Int → Nat → Bool → Bool → PixMap
  convolve_draw : PixMap → Psf → Nat → Nat → PixMap
  sky_image : String → Nat → Int → Int → Int → Nat → PixMap
  thermal_background : String → Int
  detector_effects : PixMap → Nat → Int → PixMap

/-- add_roman_background: translate the band to its bandpass key (KeyError
when unknown), build the sky image for that bandpass, detector, sky
coordinates and date, add the thermal background scaled by the exposure
time, and quantize. -/
def add_roman_background (ext : Externals) (image : GImage) (band : String)
    (detector : Nat) (num_pix : Nat) (exposure_time : Int) (ra dec : Int)
    (date : Int) : Except String GImage :=
  match get_bandpass_key band with
  | none => Except.error ("KeyError: " ++ upper band)
  | some key =>
    let sky := ext.sky_image key detector ra dec date num_pix
    let thermal := ext.thermal_background key * exposure_time
    Except.ok ⟨image.nx, image.ny, fun i j => image.pix i j + sky i j + thermal⟩

/-- simulate_roman_image: pad num_pix by 6 (3 pixels of border on each
side), fetch the lenstronomy kwargs and the per-band settings, render the
exposure-time-scaled unconvolved image at the oversampled size, obtain the
PSF (cache or webbpsf), convolve and draw into a padded-size native-scale
image, optionally add sky background and seeded detector effects, then
crop the 3-pixel border back off and divide by the exposure time. -/
def simulate_roman_image (ext : Externals) (fs : Fs) (lens_class : LensClass)
    (band : String) (num_pix : Nat) (oversample : Nat) (add_noise : Bool)
    (with_source : Bool) (with_deflector : Bool) (detector : Nat)
    (detector_pos : Nat × Nat) (seed : Nat) (ra dec : Int) (date : Int)
    (psf_directory : Option String) : Except String GImage :=
  let np := num_pix + 6
  let kwargs := lens_class.lenstronomy_kwargs band
  let sb := ext.kwargs_single_band band
  let exposure_time := sb.1
  let array :=
    ext.render_unconvolved kwargs exposure_time (np * oversample)
      with_source with_deflector
  match (get_psf ext.wfi fs band detector detector_pos oversample psf_directory).1 with
  | Except.error e => Except.error e
  | Except.ok psf =>
    let image : GImage := ⟨np, np, ext.convolve_draw array psf oversample np⟩
    let noised : Except String GImage :=
      if add_noise then
        match add_roman_background ext image band detector np exposure_time
            ra dec date with
        | Except.error e => Except.error e
        | Except.ok bg =>
          let rng := uniformDeviate seed
          Except.ok ⟨bg.nx, bg.ny, ext.detector_effects bg.pix rng exposure_time⟩
      else Except.ok image
    match noised with
    | Except.error e => Except.error e
    | Except.ok img =>
      Except.ok ⟨img.nx - 6, img.ny - 6,
        fun i j => img.pix (i + 3) (j + 3) / exposure_time⟩

/-- The dimensions of a successfully rendered image. -/
def okDims : Except String GImage → Option (Nat × Nat)
  | Except.ok img => some (img.nx, img.ny)
  | Except.error _ => none

/-! ### Concrete instances used by witnesses -/

/-- A concrete WFI oracle. -/
def cWfi : WFI :=
  ⟨fun _ _ _ _ => ⟨7⟩⟩

/-- A concrete external-library oracle. -/
def cExt : Externals :=
  ⟨cWfi, fun _ => (1, 11), fun _ _ _ _ _ => fun _ _ => 0,
   fun _ _ _ _ => fun i j => (i : Int) + (j : Int), fun _ _ _ _ _ _ => fun _ _ => 1,
   fun _ => 2, fun p _ _ => p⟩

/-- A concrete lens-system record. -/
def cLens : LensClass :=
  ⟨fun _ => 5⟩

/-- Whether a render result is a success. -/
def okB : Except String GImage → Bool
  | Except.ok _ => true
  | Except.error _ => false

/-- The full argument record of simulate_roman_image past the external
oracle and the cache state, for stating two-run properties. -/
structure SimArgs where
  lens_class : LensClass
  band : String
  num_pix : Nat
  oversample : Nat
  add_noise : Bool
  with_source : Bool
  with_deflector : Bool
  detector : Nat
  detector_pos : Nat × Nat
  seed : Nat
  ra : Int
  dec : Int
  date : Int
  psf_directory : Option String

/-- simulate_roman_image applied to a bundled argument record. -/
def run_simulation (ext : Externals) (fs : Fs) (a : SimArgs) :
    Except String GImage :=
  simulate_roman_image ext fs a.lens_class a.band a.num_pix a.oversample
    a.add_noise a.with_source a.with_deflector a.detector a.detector_pos
    a.seed a.ra a.dec a.date a.psf_directory

/-- A concrete argument record for witnesses. -/
def cArgs : SimArgs :=
  ⟨cLens, "F106", 2, 5, true, true, true, 1, (2000, 2000), 42, 30, -30, 0,
   some "cache"⟩

/-! ## Population sampler lemmas -/

/-- Every system collected by the trial loop passed validity_test. -/
theorem draw_trials_all_valid (pop : GGLensPop) (v : GGLens → Bool) :
    ∀ (n : Nat) (rng : Rng), ((pop.draw_trials v n rng).1.all v) = true := by
  intro n
  induction n with
  | zero => intro rng; rfl
  | succ n ih =>
    intro rng
    simp only [GGLensPop.draw_trials]
    split
    · next h => simpa [List.all_cons, h] using ih _
    · exact ih _

/-- With an always-true validity test, every one of the n trials is kept. -/
theorem draw_trials_const_true_length (pop : GGLensPop) :
    ∀ (n : Nat) (rng : Rng),
      ((pop.draw_trials (fun _ => true) n rng).1).length = n := by
  intro n
  induction n with
  | zero => intro rng; rfl
  | succ n ih =>
    intro rng
    simp only [GGLensPop.draw_trials, if_pos]
    simpa using ih _

/-! ## Claims about the population sampler -/

/-- Claim C1 (code bug evidence): draw_population runs a fixed budget of 100
draw-and-validate trials and every collected system passed validity_test,
but the value it returns is the LENGTH of the accepted list (here the
number 100, with an always-true validity test), not the list of accepted
GGLens systems that its own docstring promises. -/
theorem draw_population_returns_count :
    GGLensPop.draw_population cPop (fun _ => true) 0 = 100 ∧
    ∀ (pop : GGLensPop) (v : GGLens → Bool) (rng : Rng),
      GGLensPop.draw_population pop v rng = ((pop.draw_trials v 100 rng).1).length ∧
      ((pop.draw_trials v 100 rng).1.all v) = true := by
  refine ⟨?_, fun pop v rng => ⟨rfl, draw_trials_all_valid pop v 100 rng⟩⟩
  show ((cPop.draw_trials (fun _ => true) 100 0).1).length = 100
  exact draw_trials_const_true_length cPop 100 0

/-- Claim C2 (counterexample): for the unsupported lens_type sersic,
__init__ does raise a ValueError, but the trace at the moment of the raise
already contains the construction of the SkyPyPipeline — the error is NOT
raised before the catalog pipeline is constructed, as the claim states. -/
theorem ggInit_constructs_pipeline_before_error :
    (ggInit "sersic" "galaxies").2 =
      Except.error "lens_type sersic is not supported" ∧
    (ggInit "sersic" "galaxies").1 = [InitEvent.pipelineConstructed] :=
  ⟨rfl, rfl⟩

/-- Claim C2 (amended): every unsupported lens_type raises a ValueError
at the type check, fatally and with no retry, before either galaxy table
is queried — but after the SkyPyPipeline has been constructed; an
unsupported source_type with a supported lens_type likewise raises
fatally, after the pipeline construction and the red_galaxies query. -/
theorem ggInit_unsupported_type_raises (lens_type source_type : String) :
    (lens_type ≠ "early-type" →
      ggInit lens_type source_type =
        ([InitEvent.pipelineConstructed],
         Except.error ("lens_type " ++ lens_type ++ " is not supported"))) ∧
    (lens_type = "early-type" → source_type ≠ "galaxies" →
      ggInit lens_type source_type =
        ([InitEvent.pipelineConstructed, InitEvent.redGalaxiesQueried],
         Except.error ("source_type " ++ source_type ++ " is not supported"))) := by
  constructor
  · intro h
    simp [ggInit, h]
  · intro h1 h2
    simp [ggInit, h1, h2]

/-- Witness for the amended C2 theorem at the concrete unsupported types
sersic and quasars. -/
theorem ggInit_unsupported_type_raises_witness :
    ("sersic" ≠ "early-type") ∧ ("quasars" ≠ "galaxies") ∧
    ggInit "sersic" "galaxies" =
      ([InitEvent.pipelineConstructed],
       Except.error ("lens_type " ++ "sersic" ++ " is not supported")) ∧
    ggInit "early-type" "quasars" =
      ([InitEvent.pipelineConstructed, InitEvent.redGalaxiesQueried],
       Except.error ("source_type " ++ "quasars" ++ " is not supported")) :=
  ⟨by decide, by decide,
   (ggInit_unsupported_type_raises "sersic" "galaxies").1 (by decide),
   (ggInit_unsupported_type_raises "early-type" "quasars").2 rfl (by decide)⟩

/-- Claim C8: with the external catalog draws modelled as deterministic
functions of the rng state, selecting one lens record twice from the same
state (same seed) and the same population cuts yields identical deflector
and identical source parameter sets. -/
theorem select_lens_at_random_deterministic (pop : GGLensPop) (r1 r2 : Rng)
    (h : r1 = r2) :
    (pop.select_lens_at_random r1).1.deflector =
      (pop.select_lens_at_random r2).1.deflector ∧
    (pop.select_lens_at_random r1).1.source =
      (pop.select_lens_at_random r2).1.source := by
  subst h
  exact ⟨rfl, rfl⟩

/-- Witness for C8 at the concrete population cPop and rng state 0. -/
theorem select_lens_at_random_deterministic_witness :
    (0 : Rng) = 0 ∧
    ((cPop.select_lens_at_random 0).1.deflector =
        (cPop.select_lens_at_random 0).1.deflector ∧
      (cPop.select_lens_at_random 0).1.source =
        (cPop.select_lens_at_random 0).1.source) :=
  ⟨rfl, select_lens_at_random_deterministic cPop 0 0 rfl⟩

/-! ## Image renderer lemmas -/

/-- add_roman_background keeps the image dimensions when it succeeds. -/
theorem add_roman_background_dims (ext : Externals) (image : GImage)
    (band : String) (detector num_pix : Nat) (t ra dec date : Int)
    (bg : GImage)
    (h : add_roman_background ext image band detector num_pix t ra dec date =
      Except.ok bg) :
    bg.nx = image.nx ∧ bg.ny = image.ny := by
  unfold add_roman_background at h
  cases hk : get_bandpass_key band with
  | none =>
    rw [hk] at h
    exact Except.noConfusion h
  | some key =>
    rw [hk] at h
    injection h with h2
    rw [← h2]
    exact ⟨rfl, rfl⟩

/-! ## Claims about the image renderer -/

/-- Claim C3 (counterexample): with a cache directory supplied and the
cache file for the requested tuple present but unreadable by pickle,
get_psf raises the unpickling error instead of falling back to computing
the PSF on the fly — an invalid cached file makes the call fail. -/
theorem get_psf_corrupt_cache_fails :
    (get_psf cWfi
        [(psfFilePath "F106" 1 (2000, 2000) 5 (some "cache"), PsfFile.corrupt)]
        "F106" 1 (2000, 2000) 5 (some "cache")).1 =
      Except.error "UnpicklingError" := by
  simp [get_psf, List.lookup]

/-- Claim C3 (amended): whenever no cache file exists at the resolved path
— under the supplied cache directory, or under the default data directory
when none is supplied — get_psf computes the PSF synchronously with
webbpsf (filter set to the upper-cased band, the SCA detector string and
the requested position and oversample) instead of failing; an existing
valid file is loaded, and an existing invalid file raises. -/
theorem get_psf_miss_computes_on_the_fly (wfi : WFI) (fs : Fs) (band : String)
    (detector : Nat) (detector_pos : Nat × Nat) (oversample : Nat)
    (psf_directory : Option String)
    (h : fs.lookup
      (psfFilePath band detector detector_pos oversample psf_directory) = none) :
    (get_psf wfi fs band detector detector_pos oversample psf_directory).1 =
      Except.ok
        (wfi.calc_psf (upper band) (scaId detector) detector_pos oversample) := by
  simp only [get_psf, h]

/-- Witness for the amended C3 theorem: empty cache, no directory
supplied, the PSF is the freshly computed one. -/
theorem get_psf_miss_computes_on_the_fly_witness :
    List.lookup (psfFilePath "F106" 1 (2000, 2000) 5 none) ([] : Fs) = none ∧
    (get_psf cWfi [] "F106" 1 (2000, 2000) 5 none).1 =
      Except.ok (cWfi.calc_psf (upper "F106") (scaId 1) (2000, 2000) 5) :=
  ⟨rfl, get_psf_miss_computes_on_the_fly cWfi [] "F106" 1 (2000, 2000) 5 none rfl⟩

/-- Claim C4 (counterexample): after a get_psf call whose cache file does
not exist (empty cache, directory supplied), nothing has been persisted —
the cache is unchanged and the file for the requested tuple still does not
exist, so a subsequent identical request recomputes instead of reading. -/
theorem get_psf_does_not_persist :
    (get_psf cWfi [] "F106" 1 (2000, 2000) 5 (some "cache")).2 = ([] : Fs) ∧
    List.lookup (psfFilePath "F106" 1 (2000, 2000) 5 (some "cache"))
      (get_psf cWfi [] "F106" 1 (2000, 2000) 5 (some "cache")).2 = none :=
  ⟨rfl, rfl⟩

/-- Claim C4 (amended): get_psf never writes to the PSF cache: the cache
state after any call is exactly the cache state before it.  Cache entries
are produced offline; a miss computes the PSF on the fly and does not
persist it. -/
theorem get_psf_cache_readonly (wfi : WFI) (fs : Fs) (band : String)
    (detector : Nat) (detector_pos : Nat × Nat) (oversample : Nat)
    (psf_directory : Option String) :
    (get_psf wfi fs band detector detector_pos oversample psf_directory).2 =
      fs := by
  cases h : fs.lookup
      (psfFilePath band detector detector_pos oversample psf_directory) with
  | none => simp [get_psf, h]
  | some f => cases f <;> simp [get_psf, h]

/-- Every run of simulate_roman_image either fails, or returns an image of
exactly the requested dimensions. -/
theorem simulate_roman_image_shape (ext : Externals) (fs : Fs)
    (lens_class : LensClass) (band : String) (num_pix oversample : Nat)
    (add_noise with_source with_deflector : Bool) (detector : Nat)
    (detector_pos : Nat × Nat) (seed : Nat) (ra dec date : Int)
    (psf_directory : Option String) :
    (∃ e, simulate_roman_image ext fs lens_class band num_pix oversample
      add_noise with_source with_deflector detector detector_pos seed
      ra dec date psf_directory = Except.error e) ∨
    (∃ img, simulate_roman_image ext fs lens_class band num_pix oversample
      add_noise with_source with_deflector detector detector_pos seed
      ra dec date psf_directory = Except.ok img ∧
      img.nx = num_pix ∧ img.ny = num_pix) := by
  unfold simulate_roman_image
  cases hpsf : (get_psf ext.wfi fs band detector detector_pos oversample
      psf_directory).1 with
  | error e =>
    left
    exact ⟨e, rfl⟩
  | ok psf =>
    cases add_noise with
    | false =>
      right
      refine ⟨_, rfl, ?_, ?_⟩ <;> simp
    | true =>
      dsimp only
      cases hbg : add_roman_background ext
          ⟨num_pix + 6, num_pix + 6,
            ext.convolve_draw
              (ext.render_unconvolved (lens_class.lenstronomy_kwargs band)
                (ext.kwargs_single_band band).1 ((num_pix + 6) * oversample)
                with_source with_deflector)
              psf oversample (num_pix + 6)⟩
          band detector (num_pix + 6) (ext.kwargs_single_band band).1
          ra dec date with
      | error e =>
        left
        exact ⟨e, rfl⟩
      | ok bg =>
        have hd := add_roman_background_dims _ _ _ _ _ _ _ _ _ _ hbg
        right
        refine ⟨_, rfl, ?_, ?_⟩ <;> simp [hd.1, hd.2]

/-- Claim C5: whenever simulate_roman_image succeeds, the returned array
has exactly the requested dimensions: the grid is padded to num_pix + 6
(three border pixels per side) and the border is cropped back off at the
end. -/
theorem simulate_roman_image_dims (ext : Externals) (fs : Fs)
    (lens_class : LensClass) (band : String) (num_pix oversample : Nat)
    (add_noise with_source with_deflector : Bool) (detector : Nat)
    (detector_pos : Nat × Nat) (seed : Nat) (ra dec date : Int)
    (psf_directory : Option String)
    (h : okB (simulate_roman_image ext fs lens_class band num_pix oversample
      add_noise with_source with_deflector detector detector_pos seed
      ra dec date psf_directory) = true) :
    okDims (simulate_roman_image ext fs lens_class band num_pix oversample
        add_noise with_source with_deflector detector detector_pos seed
        ra dec date psf_directory) = some (num_pix, num_pix) := by
  rcases simulate_roman_image_shape ext fs lens_class band num_pix oversample
      add_noise with_source with_deflector detector detector_pos seed
      ra dec date psf_directory with ⟨e, he⟩ | ⟨img, hi, hx, hy⟩
  · rw [he] at h
    simp [okB] at h
  · rw [hi]
    simp [okDims, hx, hy]

/-- Witness for C5 at concrete arguments: num_pix 2, noiseless branch. -/
theorem simulate_roman_image_dims_witness :
    okB (simulate_roman_image cExt [] cLens "F106" 2 5 false true true 1
        (2000, 2000) 42 30 (-30) 0 none) = true ∧
    okDims (simulate_roman_image cExt [] cLens "F106" 2 5 false true true 1
        (2000, 2000) 42 30 (-30) 0 none) = some (2, 2) :=
  ⟨rfl, simulate_roman_image_dims cExt [] cLens "F106" 2 5 false true true 1
    (2000, 2000) 42 30 (-30) 0 none rfl⟩

/-- Claim C6: rendering is deterministic as a two-run property — two calls
of simulate_roman_image with the same external libraries, the same cache
state and equal argument records (same lens record, band, seed, cache
directory and all other arguments) return the same pixel array; the only
random generator involved, the detector-noise UniformDeviate, is
constructed per call from the seed argument alone. -/
theorem simulate_roman_image_deterministic (ext : Externals) (fs : Fs)
    (a b : SimArgs) (h : a = b) :
    run_simulation ext fs a = run_simulation ext fs b := by
  rw [h]

/-- Witness for C6 at the concrete argument record cArgs. -/
theorem simulate_roman_image_deterministic_witness :
    run_simulation cExt [] cArgs = run_simulation cExt [] cArgs :=
  simulate_roman_image_deterministic cExt [] cArgs cArgs rfl

/-- Claim C7 (counterexample): for band F106, detector 1, position
(2000, 2000) and oversample 5, the cache file name is
F106_SCA01_2000_2000_5.pkl — the detector id is rewritten to its
zero-padded SCA form and a pickle extension is appended — and not the
claimed F106_1_2000_2000_5 built from the detector id as given. -/
theorem psf_file_name_not_raw_detector :
    psfFileName "F106" 1 (2000, 2000) 5 = "F106_SCA01_2000_2000_5.pkl" ∧
    psfFileName "F106" 1 (2000, 2000) 5 ≠ "F106_1_2000_2000_5" := by
  constructor
  · rfl
  · decide

/-- Claim C7 (amended): the cache file get_psf reads lives under the
supplied cache directory and is named by the template
band_SCAdd_posx_posy_oversample.pkl with the detector number zero-padded
to two digits: a cache holding exactly that path returns its PSF. -/
theorem get_psf_lookup_uses_sca_template (wfi : WFI) (band : String)
    (detector : Nat) (detector_pos : Nat × Nat) (oversample : Nat)
    (dir : String) (p : Psf) :
    psfFileName band detector detector_pos oversample =
      band ++ "_SCA" ++ zfill 2 (toString detector) ++ "_"
        ++ toString detector_pos.1 ++ "_" ++ toString detector_pos.2 ++ "_"
        ++ toString oversample ++ ".pkl" ∧
    (get_psf wfi
        [(pathJoin dir (psfFileName band detector detector_pos oversample),
          PsfFile.valid p)]
        band detector detector_pos oversample (some dir)).1 = Except.ok p := by
  constructor
  · simp only [psfFileName, scaId, String.append_assoc]
    congr 1
  · simp [get_psf, psfFilePath, List.lookup]

/-- Claim C9: the bandpass translation is defined for exactly the eight
Roman bands, matched after upper-casing; for every other band string the
lookup raises KeyError, and simulate_roman_image with add_noise set fails
for such a band. -/
theorem get_bandpass_key_domain :
    (∀ band : String,
      (get_bandpass_key band).isSome = true ↔ upper band ∈ romanBands) ∧
    (∀ (ext : Externals) (fs : Fs) (lens_class : LensClass) (band : String)
        (num_pix oversample : Nat) (with_source with_deflector : Bool)
        (detector : Nat) (detector_pos : Nat × Nat) (seed : Nat)
        (ra dec date : Int) (psf_directory : Option String),
      get_bandpass_key band = none →
      okB (simulate_roman_image ext fs lens_class band num_pix oversample true
          with_source with_deflector detector detector_pos seed ra dec date
          psf_directory) = false) := by
  constructor
  · intro band
    simp only [get_bandpass_key]
    split_ifs with h1 h2 h3 h4 h5 h6 h7 h8 <;>
      simp_all [romanBands]
  · intro ext fs lens_class band num_pix oversample with_source with_deflector
      detector detector_pos seed ra dec date psf_directory hk
    unfold simulate_roman_image
    cases hpsf : (get_psf ext.wfi fs band detector detector_pos oversample
        psf_directory).1 with
    | error e =>
      rfl
    | ok psf =>
      simp [add_roman_background, hk, okB]

/-- Witness for C9 at the concrete band k062 (upper-cased to K062, outside
the table): the translation is undefined and the noisy render fails. -/
theorem get_bandpass_key_domain_witness :
    ((get_bandpass_key "k062").isSome = true ↔ upper "k062" ∈ romanBands) ∧
    okB (simulate_roman_image cExt [] cLens "k062" 2 5 true true true 1
        (2000, 2000) 42 30 (-30) 0 none) = false :=
  ⟨get_bandpass_key_domain.1 "k062",
   get_bandpass_key_domain.2 cExt [] cLens "k062" 2 5 true true 1 (2000, 2000)
     42 30 (-30) 0 none (by decide)⟩

/-- Claim C10: with add_noise set to false the rendered array does not
depend on the seed, ra, dec or date arguments — those are consumed only
inside the noise and background branch — so two calls differing only in
them are identical. -/
theorem simulate_no_noise_ignores_seed_coords_date (ext : Externals) (fs : Fs)
    (lens_class : LensClass) (band : String) (num_pix oversample : Nat)
    (with_source with_deflector : Bool) (detector : Nat)
    (detector_pos : Nat × Nat) (seed1 seed2 : Nat)
    (ra1 ra2 dec1 dec2 date1 date2 : Int) (psf_directory : Option String) :
    simulate_roman_image ext fs lens_class band num_pix oversample false
        with_source with_deflector detector detector_pos seed1 ra1 dec1 date1
        psf_directory =
      simulate_roman_image ext fs lens_class band num_pix oversample false
        with_source with_deflector detector detector_pos seed2 ra2 dec2 date2
        psf_directory :=
  rfl
